import Mathlib

/-!
A shallow embedding of the NewsExplorer backend (`backend.py`) ingestion
pipeline: the text normalizer, language detector, sentiment scorer,
feed fetcher, deduplicator, store writer, the pipeline job state, and the
query-filter construction.  External effects (HTTP responses, the
`langdetect` and VADER libraries, `strptime`) are passed in as explicit
oracle inputs; Python exceptions of fallible operations are modelled with
`Except`/`Option`.  Theorems about the spec's claims follow the
definitions.
-/

/-- An Article record, as assembled by `fetch_feed` and stored in the
`news` table: eight string-valued fields. -/
structure Article where
  title : String
  publication_date : String
  source : String
  country : String
  summary : String
  url : String
  language : String
  sentiment : String
deriving DecidableEq

/-- Python `str.strip()` on a character list: drop leading and trailing
whitespace. -/
def pyStripList (l : List Char) : List Char :=
  ((l.dropWhile Char.isWhitespace).reverse.dropWhile Char.isWhitespace).reverse

/-- Python `str.strip()`. -/
def pyStrip (s : String) : String := String.mk (pyStripList s.data)

/-- Python slicing `s[:n]`: the first `n` characters. -/
def pyTake (s : String) (n : Nat) : String := String.mk (s.data.take n)

/-- Replace every maximal whitespace run by a single space, as
`re.sub(r"\s+", " ", ·)` does; the flag records whether the previous
character was part of a whitespace run. -/
def squeezeWsAux : Bool → List Char → List Char
  | _, [] => []
  | prevWs, c :: rest =>
      if c.isWhitespace then
        if prevWs then squeezeWsAux true rest
        else ' ' :: squeezeWsAux true rest
      else c :: squeezeWsAux false rest

/-- `clean_text`: `re.sub(r"\s+", " ", text.strip())` — trim the text and
collapse every internal whitespace run to a single space (the
encode/decode round trip drops no characters on valid unicode input,
which Lean strings always are). -/
def clean_text (text : String) : String :=
  String.mk (squeezeWsAux false (pyStripList text.data))

/-- `detect_language`: return "unknown" when the trimmed text is shorter
than 10 characters, otherwise run the `langdetect` oracle on the first
1000 characters; a raised exception (`Except.error`) or an empty result
degrades to "unknown". -/
def detect_language (detect : String → Except Unit String) (text : String) : String :=
  if (pyStrip text).length < 10 then "unknown"
  else
    match detect (pyTake text 1000) with
    | Except.error _ => "unknown"
    | Except.ok lang => if lang = "" then "unknown" else lang

/-- `analyze_sentiment`: classify by the VADER compound polarity score
(the oracle `polarity`, a rational in place of the Python float):
strictly above 0.05 is "positive", strictly below -0.05 is "negative",
otherwise "neutral"; a raised exception degrades to "unknown". -/
def analyze_sentiment (polarity : String → Except Unit Rat) (text : String) : String :=
  match polarity text with
  | Except.error _ => "unknown"
  | Except.ok compound =>
      if compound > 0.05 then "positive"
      else if compound < -0.05 then "negative"
      else "neutral"

/-- C5: `analyze_sentiment` classifies by the compound score with
boundaries: strictly greater than 0.05 is "positive", strictly less than
-0.05 is "negative", any score in [-0.05, 0.05] (both endpoints
included) is "neutral"; and on a scoring failure it returns "unknown"
rather than raising. -/
theorem analyze_sentiment_boundaries (polarity : String → Except Unit Rat) (text : String) :
    (∀ c : Rat, polarity text = Except.ok c →
      ((c > 0.05 → analyze_sentiment polarity text = "positive") ∧
       (c < -0.05 → analyze_sentiment polarity text = "negative") ∧
       (-0.05 ≤ c → c ≤ 0.05 → analyze_sentiment polarity text = "neutral"))) ∧
    (∀ e : Unit, polarity text = Except.error e → analyze_sentiment polarity text = "unknown") := by
  constructor
  · intro c hc
    refine ⟨fun hpos => ?_, fun hneg => ?_, fun hge hle => ?_⟩
    · simp [analyze_sentiment, hc, hpos]
    · have hnotpos : ¬ c > 0.05 := by linarith
      simp [analyze_sentiment, hc, hnotpos, hneg]
    · have hnotpos : ¬ c > 0.05 := by linarith
      have hnotneg : ¬ c < -0.05 := by linarith
      simp [analyze_sentiment, hc, hnotpos, hnotneg]
  · intro e he
    simp [analyze_sentiment, he]

/-- Witness for C5: with a scorer returning exactly 0.05 the result is
"neutral"; exactly -0.05 is also "neutral"; 0.0501 is "positive";
-0.0501 is "negative"; a failing scorer gives "unknown". -/
theorem analyze_sentiment_boundaries_witness :
    analyze_sentiment (fun _ => Except.ok (0.05 : Rat)) "t" = "neutral" ∧
    analyze_sentiment (fun _ => Except.ok (-0.05 : Rat)) "t" = "neutral" ∧
    analyze_sentiment (fun _ => Except.ok (0.0501 : Rat)) "t" = "positive" ∧
    analyze_sentiment (fun _ => Except.ok (-0.0501 : Rat)) "t" = "negative" ∧
    analyze_sentiment (fun _ => Except.error ()) "t" = "unknown" := by
  refine ⟨?_, ?_, ?_, ?_, ?_⟩
  · exact ((analyze_sentiment_boundaries (fun _ => Except.ok (0.05 : Rat)) "t").1 0.05 rfl).2.2
      (by norm_num) (by norm_num)
  · exact ((analyze_sentiment_boundaries (fun _ => Except.ok (-0.05 : Rat)) "t").1 (-0.05) rfl).2.2
      (by norm_num) (by norm_num)
  · exact ((analyze_sentiment_boundaries (fun _ => Except.ok (0.0501 : Rat)) "t").1 0.0501 rfl).1
      (by norm_num)
  · exact ((analyze_sentiment_boundaries (fun _ => Except.ok (-0.0501 : Rat)) "t").1 (-0.0501) rfl).2.1
      (by norm_num)
  · exact (analyze_sentiment_boundaries (fun _ => Except.error ()) "t").2 () rfl

/-- C8: `detect_language` returns "unknown" on trimmed input shorter than
10 characters; otherwise it runs detection on at most the first 1000
characters, degrading a raised exception or an empty detection result to
"unknown"; and its result is never the empty string. -/
theorem detect_language_contract (detect : String → Except Unit String) (text : String) :
    ((pyStrip text).length < 10 → detect_language detect text = "unknown") ∧
    (¬ (pyStrip text).length < 10 →
      detect_language detect text =
        match detect (pyTake text 1000) with
        | Except.error _ => "unknown"
        | Except.ok lang => if lang = "" then "unknown" else lang) ∧
    detect_language detect text ≠ "" := by
  refine ⟨fun hshort => ?_, fun hlong => ?_, ?_⟩
  · simp [detect_language, hshort]
  · simp [detect_language, hlong]
  · unfold detect_language
    by_cases hshort : (pyStrip text).length < 10
    · simp [hshort]
    · simp only [hshort, if_false]
      match detect (pyTake text 1000) with
      | Except.error _ => simp
      | Except.ok lang =>
          by_cases hempty : lang = ""
          · simp [hempty]
          · simp [hempty]

/-- Witness for C8: a 2-character input yields "unknown"; an 11-character
input with a detector answering "en" yields "en"; neither is empty. -/
theorem detect_language_contract_witness :
    detect_language (fun _ => Except.ok "en") "hi" = "unknown" ∧
    detect_language (fun _ => Except.ok "en") "hello world" = "en" ∧
    detect_language (fun _ => Except.ok "en") "hello world" ≠ "" := by
  refine ⟨?_, ?_, ?_⟩
  · exact (detect_language_contract (fun _ => Except.ok "en") "hi").1 (by decide)
  · have h := (detect_language_contract (fun _ => Except.ok "en") "hello world").2.1 (by decide)
    simpa using h
  · exact (detect_language_contract (fun _ => Except.ok "en") "hello world").2.2

/-- A raw syndication-feed entry as `feedparser` presents it to
`fetch_feed`: each field is `none` when the entry lacks that key
(`entry.get` then supplies the default). -/
structure RawEntry where
  title : Option String
  summary : Option String
  description : Option String
  link : Option String
  published : Option String
  updated : Option String
deriving DecidableEq

/-- A Python `datetime` value: either offset-naive (as `datetime.now()`
returns) or offset-aware (as `strptime` with `%z` returns); the payload
is the timestamp in seconds. -/
inductive PyDateTime where
  | naive (t : Int)
  | aware (t : Int)
deriving DecidableEq

/-- Python comparison of two `datetime` values: comparing an offset-naive
with an offset-aware value raises `TypeError` (`Except.error`). -/
def pyLt : PyDateTime → PyDateTime → Except Unit Bool
  | PyDateTime.naive a, PyDateTime.naive b => Except.ok (a < b)
  | PyDateTime.aware a, PyDateTime.aware b => Except.ok (a < b)
  | _, _ => Except.error ()

/-- `strftime` on the chosen datetime, used only as an opaque injective
rendering of the timestamp into the `publication_date` string (no claim
depends on the calendar text itself). -/
def formatTime : PyDateTime → String
  | PyDateTime.naive t => toString t
  | PyDateTime.aware t => toString t

/-- The external inputs of one `fetch_feed` call's entry processing:
`parseDate` models `datetime.strptime(s, "%a, %d %b %Y %H:%M:%S %z")`
(`none` = `ValueError`; on success the result is offset-aware because of
`%z`), `detect` models `langdetect.detect`, `polarity` models the VADER
compound score, and `now` is the clock reading (seconds) behind
`datetime.now()`. -/
structure Oracles where
  parseDate : String → Option Int
  detect : String → Except Unit String
  polarity : String → Except Unit Rat
  now : Int

/-- `entry.get("published", entry.get("updated", ""))`. -/
def entryPubString (e : RawEntry) : String :=
  e.published.getD (e.updated.getD "")

/-- The date block of `fetch_feed`'s per-entry loop: an empty/absent
date string falls back to `datetime.now()`; a `ValueError` from
`strptime` likewise (inner `except ValueError`); on a successful parse
the code compares the offset-aware result against the offset-naive
`one_year_ago = datetime.now() - timedelta(days=365)` — that comparison
raises `TypeError`, which only the outer `except Exception` catches,
falling back to `datetime.now()`.  The result is `none` exactly when the
`continue` drops the entry as older than 365 days. -/
def resolveDate (o : Oracles) (e : RawEntry) : Option PyDateTime :=
  if entryPubString e = "" then some (PyDateTime.naive o.now)
  else
    match o.parseDate (entryPubString e) with
    | none => some (PyDateTime.naive o.now)
    | some t =>
        match pyLt (PyDateTime.aware t) (PyDateTime.naive (o.now - 365 * 86400)) with
        | Except.ok true => none
        | Except.ok false => some (PyDateTime.aware t)
        | Except.error _ => some (PyDateTime.naive o.now)

/-- `clean_text(entry.get("title", "No Title"))`. -/
def entryTitle (e : RawEntry) : String :=
  clean_text (e.title.getD "No Title")

/-- `clean_text(entry.get("summary", entry.get("description", "")))`. -/
def entrySummary (e : RawEntry) : String :=
  clean_text (e.summary.getD (e.description.getD ""))

/-- The Article appended for one surviving entry of `fetch_feed`. -/
def buildArticle (o : Oracles) (country agency : String) (e : RawEntry) (d : PyDateTime) :
    Article :=
  { title := entryTitle e,
    publication_date := formatTime d,
    source := agency,
    country := country,
    summary := entrySummary e,
    url := e.link.getD "",
    language := detect_language o.detect (entryTitle e ++ " " ++ entrySummary e),
    sentiment := analyze_sentiment o.polarity (entrySummary e) }

/-- The `for entry in feed.entries` loop of `fetch_feed`: an entry whose
date block `continue`s is skipped, every other entry contributes one
Article, in feed order. -/
def processEntries (o : Oracles) (country agency : String) : List RawEntry → List Article
  | [] => []
  | e :: rest =>
      match resolveDate o e with
      | none => processEntries o country agency rest
      | some d => buildArticle o country agency e d :: processEntries o country agency rest

/-- One `fetch_feed` call's inputs: the configured source triple, the
network outcome (`Except.error` = `requests.RequestException`, covering
timeouts, retry exhaustion and HTTP error statuses; `Except.ok` = the
parsed feed's entry list), and the processing oracles. -/
structure FetchEnv where
  country : String
  agency : String
  feedUrl : String
  response : Except Unit (List RawEntry)
  oracles : Oracles

/-- `fetch_feed`: on a network failure the `except RequestException`
branch returns `[]`; a feed with zero entries returns `[]` after a
warning; otherwise the entries are processed in order.  The function-level
`except Exception` (any processing error, also returning `[]`) is
unreachable here because every modelled sub-operation is total. -/
def fetch_feed (env : FetchEnv) : List Article :=
  match env.response with
  | Except.error _ => []
  | Except.ok entries =>
      if entries.isEmpty then []
      else processEntries env.oracles env.country env.agency entries

/-- `scrape_all_feeds`: extend `news_data` with the historical-scrape
articles, then with each submitted task's `fetch_feed` result in
submission order; the value is the list appended to `news_data`. -/
def scrape_all_feeds (histArts : List Article) (envs : List FetchEnv) : List Article :=
  histArts ++ (envs.map fetch_feed).flatten

/-- C2: `fetch_feed` never raises: a network failure (including retry
exhaustion) returns `[]`, an empty feed returns `[]`, and — since every
processing sub-operation is modelled total and the function-level
handler also returns `[]` — so does any processing error; consequently
one failing source inside `scrape_all_feeds` contributes nothing while
every other source's Articles are all collected. -/
theorem fetch_feed_failure_isolation (env : FetchEnv) (histArts : List Article)
    (pre post : List FetchEnv) (bad : FetchEnv)
    (hbad : ∃ e, bad.response = Except.error e) :
    ((∃ e, env.response = Except.error e) → fetch_feed env = []) ∧
    (env.response = Except.ok [] → fetch_feed env = []) ∧
    scrape_all_feeds histArts (pre ++ bad :: post) =
      histArts ++ ((pre ++ post).map fetch_feed).flatten := by
  have hfail : ∀ f : FetchEnv, (∃ e, f.response = Except.error e) → fetch_feed f = [] := by
    rintro f ⟨e, he⟩
    simp [fetch_feed, he]
  refine ⟨hfail env, fun hok => ?_, ?_⟩
  · simp [fetch_feed, hok]
  · simp [scrape_all_feeds, hfail bad hbad]

/-- Shared sample oracles for concrete fetch scenarios. -/
def oraclesW : Oracles :=
  { parseDate := fun _ => none, detect := fun _ => Except.error (),
    polarity := fun _ => Except.error (), now := 0 }

/-- A well-formed sample entry. -/
def entryW : RawEntry :=
  { title := some "Hello", summary := some "World peace talks resume", description := none,
    link := some "http://x/1", published := none, updated := none }

/-- A source whose fetch succeeds with one entry. -/
def envOkW : FetchEnv :=
  { country := "UK", agency := "BBC News", feedUrl := "u1",
    response := Except.ok [entryW], oracles := oraclesW }

/-- A source whose fetch raises a network error. -/
def envBadW : FetchEnv :=
  { country := "USA", agency := "CNN", feedUrl := "u2",
    response := Except.error (), oracles := oraclesW }

/-- A second succeeding source. -/
def envOk2W : FetchEnv :=
  { country := "UK", agency := "The Guardian", feedUrl := "u3",
    response := Except.ok [entryW], oracles := oraclesW }

/-- Witness for C2: with three configured sources of which the middle one
fails on the network, the failed fetch yields `[]` and the orchestrator
output is exactly the other two sources' Articles. -/
theorem fetch_feed_failure_isolation_witness :
    fetch_feed envBadW = [] ∧
    scrape_all_feeds [] ([envOkW] ++ envBadW :: [envOk2W]) =
      [] ++ (([envOkW] ++ [envOk2W]).map fetch_feed).flatten := by
  have h := fetch_feed_failure_isolation envBadW [] [envOkW] [envOk2W] envBadW ⟨(), rfl⟩
  exact ⟨h.1 ⟨(), rfl⟩, h.2.2⟩

/-- C4 (code bug): for every entry whose published/updated string is
present and parseable, `strptime` with `%z` yields an offset-aware
datetime while `one_year_ago` is offset-naive, so the recency comparison
`pub_date < one_year_ago` raises `TypeError`; the outer per-entry
handler catches it and resets the date to `datetime.now()`.  Hence no
parseable-dated entry is ever dropped by the recency window — however
old — and its publication date is replaced by the ingestion time. -/
theorem recency_filter_never_drops (o : Oracles) (e : RawEntry) (t : Int)
    (hp : entryPubString e ≠ "") (hparse : o.parseDate (entryPubString e) = some t) :
    resolveDate o e = some (PyDateTime.naive o.now) := by
  simp [resolveDate, hp, hparse, pyLt]

/-- Oracles for a far-in-the-past entry: the date parses to timestamp 0
while "now" is about 55 years later. -/
def oraclesOld : Oracles :=
  { parseDate := fun _ => some 0, detect := fun _ => Except.error (),
    polarity := fun _ => Except.error (), now := 1750000000 }

/-- An entry published decades before the 365-day window. -/
def entryOld : RawEntry :=
  { title := some "Old story", summary := none, description := none,
    link := some "http://x/old",
    published := some "Mon, 01 Jan 1990 00:00:00 +0000", updated := none }

/-- Witness for C4's bug theorem: an entry whose parsed timestamp 0 lies
far outside the 365-day window (0 < now - 365*86400) is still kept, with
its date replaced by "now". -/
theorem recency_filter_never_drops_witness :
    (0 : Int) < 1750000000 - 365 * 86400 ∧
    resolveDate oraclesOld entryOld = some (PyDateTime.naive 1750000000) :=
  ⟨by norm_num, recency_filter_never_drops oraclesOld entryOld 0 (by decide) rfl⟩

/-- C9 (amended): the "No Title" sentinel is applied only when the entry
lacks a title field entirely; a present title is merely normalized (so a
present-but-empty or all-whitespace title yields an empty Article
title); in either case the entry's Article is kept in the output, not
dropped. -/
theorem fallback_title_contract (o : Oracles) (country agency : String)
    (e : RawEntry) (rest : List RawEntry) (d : PyDateTime)
    (hd : resolveDate o e = some d) :
    (e.title = none → (buildArticle o country agency e d).title = "No Title") ∧
    (∀ s, e.title = some s → (buildArticle o country agency e d).title = clean_text s) ∧
    buildArticle o country agency e d ∈ processEntries o country agency (e :: rest) := by
  refine ⟨fun hnone => ?_, fun s hs => ?_, ?_⟩
  · show clean_text ((e.title.getD "No Title")) = "No Title"
    rw [hnone]
    decide
  · show clean_text ((e.title.getD "No Title")) = clean_text s
    rw [hs, Option.getD_some]
  · simp [processEntries, hd]

/-- A fetch whose single entry carries a present-but-empty title. -/
def envEmptyTitle : FetchEnv :=
  { country := "Custom", agency := "Custom Feed", feedUrl := "u",
    response := Except.ok [{ title := some "", summary := none, description := none,
                             link := some "http://x/e", published := none, updated := none }],
    oracles := { parseDate := fun _ => none, detect := fun _ => Except.error (),
                 polarity := fun _ => Except.error (), now := 0 } }

/-- C9 counterexample: an entry whose title field is present but empty
does not receive the "No Title" sentinel — `fetch_feed` produces an
Article whose title is the empty string, refuting "non-empty after
normalization". -/
theorem fallback_title_counterexample :
    (fetch_feed envEmptyTitle).map Article.title = [""] := by decide

/-- Witness for C9's amended theorem: an entry with no title field and no
summary yields the Article title "No Title" and the Article appears in
the processed output. -/
theorem fallback_title_contract_witness :
    (buildArticle oraclesW "Custom" "Custom Feed"
        { title := none, summary := none, description := none,
          link := none, published := none, updated := none }
        (PyDateTime.naive 0)).title = "No Title" ∧
    buildArticle oraclesW "Custom" "Custom Feed"
        { title := none, summary := none, description := none,
          link := none, published := none, updated := none }
        (PyDateTime.naive 0) ∈
      processEntries oraclesW "Custom" "Custom Feed"
        [{ title := none, summary := none, description := none,
           link := none, published := none, updated := none }] := by
  have h := fallback_title_contract oraclesW "Custom" "Custom Feed"
      { title := none, summary := none, description := none,
        link := none, published := none, updated := none }
      [] (PyDateTime.naive 0) (by decide)
  exact ⟨h.1 rfl, h.2.2⟩

/-- The in-batch dedup key actually used by `remove_duplicates`:
`drop_duplicates(subset=["title", "source", "url"], keep="first")`. -/
abbrev DedupKey := String × String × String

/-- The `subset` columns of the pandas `drop_duplicates` call. -/
def dedupKey (a : Article) : DedupKey := (a.title, a.source, a.url)

/-- Pandas `drop_duplicates(..., keep="first")` over a running set of
already-seen keys: keep a row iff its key has not occurred earlier. -/
def removeDupAux (seen : List DedupKey) : List Article → List Article
  | [] => []
  | a :: rest =>
      if dedupKey a ∈ seen then removeDupAux seen rest
      else a :: removeDupAux (dedupKey a :: seen) rest

/-- `remove_duplicates`: rebuild `news_data` keeping the first occurrence
per `(title, source, url)` key, preserving order. -/
def remove_duplicates (batch : List Article) : List Article :=
  removeDupAux [] batch

/-- Stable first-wins deduplication stated the spec's way: keep the head,
discard every later row with the head's key, recurse. -/
def dedupFirstWins : List Article → List Article
  | [] => []
  | a :: rest =>
      a :: dedupFirstWins (rest.filter (fun b => decide (dedupKey b ≠ dedupKey a)))
termination_by l => l.length
decreasing_by
  simp only [List.length_cons]
  exact Nat.lt_succ_of_le (List.length_filter_le _ rest)

theorem removeDupAux_eq_filter (seen : List DedupKey) (l : List Article) :
    removeDupAux seen l =
      dedupFirstWins (l.filter (fun b => decide (dedupKey b ∉ seen))) := by
  induction l generalizing seen with
  | nil => simp [removeDupAux, dedupFirstWins]
  | cons a rest ih =>
      by_cases h : dedupKey a ∈ seen
      · rw [removeDupAux, if_pos h]
        have hf : List.filter (fun b => decide (dedupKey b ∉ seen)) (a :: rest)
            = List.filter (fun b => decide (dedupKey b ∉ seen)) rest := by
          simp [List.filter_cons, h]
        rw [hf]
        exact ih seen
      · rw [removeDupAux, if_neg h]
        have hf : List.filter (fun b => decide (dedupKey b ∉ seen)) (a :: rest)
            = a :: List.filter (fun b => decide (dedupKey b ∉ seen)) rest := by
          simp [List.filter_cons, h]
        rw [hf, dedupFirstWins, ih (dedupKey a :: seen), List.filter_filter]
        congr 1
        congr 1
        apply List.filter_congr
        intro b _
        by_cases h1 : dedupKey b = dedupKey a <;> by_cases h2 : dedupKey b ∈ seen <;>
          simp [h1, h2, List.mem_cons]

/-- C1 (amended): `remove_duplicates` treats two Articles as the same
entity iff their `(title, source, url)` are all equal —
`publication_date` is not part of the in-batch dedup key: it keeps
exactly the first occurrence per that three-component key, surviving
entries in their original relative order (the stable first-wins policy
stated by the spec, but over the three-column subset). -/
theorem remove_duplicates_first_wins (batch : List Article) :
    remove_duplicates batch = dedupFirstWins batch := by
  have h := removeDupAux_eq_filter [] batch
  simpa [remove_duplicates] using h

/-- A sample article for the dedup counterexample. -/
def artDup1 : Article :=
  { title := "Summit ends", publication_date := "2024-01-01 08:00:00", source := "BBC News",
    country := "UK", summary := "s", url := "http://x/a", language := "en",
    sentiment := "neutral" }

/-- The same article except for its publication date. -/
def artDup2 : Article := { artDup1 with publication_date := "2024-06-01 09:30:00" }

/-- C1 counterexample: two Articles identical except in
`publication_date` alone are not both kept — `remove_duplicates` drops
the second, contradicting the claimed four-component identity key. -/
theorem remove_duplicates_key_counterexample :
    artDup1.publication_date ≠ artDup2.publication_date ∧
    remove_duplicates [artDup1, artDup2] = [artDup1] := by
  constructor
  · decide
  · decide

/-- The storage identity key: the `UNIQUE(title, publication_date,
source, url)` constraint of the `news` table. -/
abbrev StoreKey := String × String × String × String

/-- The uniqueness-constraint columns of a stored row. -/
def storeKey (a : Article) : StoreKey :=
  (a.title, a.publication_date, a.source, a.url)

/-- `INSERT OR IGNORE`: the row is appended unless some stored row
already carries its identity key, in which case the store is untouched
(the existing row is left unchanged). -/
def insertOrIgnore (db : List Article) (a : Article) : List Article :=
  if db.any (fun r => decide (storeKey r = storeKey a)) then db else db ++ [a]

/-- The row loop of `save_to_database`, which runs inside a single
`try`: rows execute in order; a row whose `execute` raises
(`rowFails a = true`) aborts the loop via the batch-level
`except sqlite3.Error` handler, leaving the store as committed so far
and attempting no later row. -/
def saveRows (rowFails : Article → Bool) : List Article → List Article → List Article
  | db, [] => db
  | db, a :: rest =>
      if rowFails a then db else saveRows rowFails (insertOrIgnore db a) rest

/-- `save_to_database`: write the batch (`news_data`) into the store. -/
def save_to_database (rowFails : Article → Bool) (batch db : List Article) : List Article :=
  saveRows rowFails db batch

/-- Some stored row already carries `a`'s identity key. -/
def hasStoreKey (db : List Article) (a : Article) : Prop :=
  ∃ r ∈ db, storeKey r = storeKey a

theorem insertOrIgnore_of_hasKey {db : List Article} {a : Article}
    (h : hasStoreKey db a) : insertOrIgnore db a = db := by
  have hb : db.any (fun r => decide (storeKey r = storeKey a)) = true := by
    simpa [List.any_eq_true, hasStoreKey] using h
  simp [insertOrIgnore, hb]

theorem hasStoreKey_insertOrIgnore_self (db : List Article) (a : Article) :
    hasStoreKey (insertOrIgnore db a) a := by
  unfold insertOrIgnore
  by_cases hb : db.any (fun r => decide (storeKey r = storeKey a)) = true
  · simp only [hb, if_true]
    simpa [hasStoreKey, List.any_eq_true] using hb
  · simp only [hb, if_false]
    exact ⟨a, by simp, rfl⟩

theorem hasStoreKey_insertOrIgnore_mono {db : List Article} {b : Article} (a : Article)
    (h : hasStoreKey db b) : hasStoreKey (insertOrIgnore db a) b := by
  obtain ⟨r, hr, hk⟩ := h
  unfold insertOrIgnore
  by_cases hb : db.any (fun r => decide (storeKey r = storeKey a)) = true
  · simp only [hb, if_true]
    exact ⟨r, hr, hk⟩
  · simp only [hb, if_false]
    exact ⟨r, by simp [hr], hk⟩

theorem hasStoreKey_saveRows_mono (f : Article → Bool) (l : List Article)
    {db : List Article} {b : Article} (h : hasStoreKey db b) :
    hasStoreKey (saveRows f db l) b := by
  induction l generalizing db with
  | nil => exact h
  | cons a rest ih =>
      rw [saveRows]
      by_cases hf : f a
      · simp only [hf, if_true]
        exact h
      · simp only [hf, if_false]
        exact ih (hasStoreKey_insertOrIgnore_mono a h)

theorem saveRows_hasKeys (l : List Article) (db : List Article) (a : Article)
    (ha : a ∈ l) : hasStoreKey (saveRows (fun _ => false) db l) a := by
  induction l generalizing db with
  | nil => cases ha
  | cons b rest ih =>
      rw [saveRows, if_neg (by simp)]
      rcases List.mem_cons.mp ha with hab | harest
      · subst hab
        exact hasStoreKey_saveRows_mono _ rest (hasStoreKey_insertOrIgnore_self db a)
      · exact ih (insertOrIgnore db b) harest

theorem saveRows_noop (l : List Article) (db : List Article)
    (h : ∀ a ∈ l, hasStoreKey db a) : saveRows (fun _ => false) db l = db := by
  induction l with
  | nil => rfl
  | cons a rest ih =>
      rw [saveRows, if_neg (by simp)]
      rw [insertOrIgnore_of_hasKey (h a (by simp))]
      exact ih (fun b hb => h b (by simp [hb]))

/-- C3: `save_to_database` is idempotent against the same store: running
it twice with the same batch leaves the store — hence its row count —
exactly as after the first run, and inserting a row whose
`(title, publication_date, source, url)` key already exists is a no-op
that leaves the existing stored row unchanged. -/
theorem save_to_database_idempotent (batch db : List Article) :
    save_to_database (fun _ => false) batch (save_to_database (fun _ => false) batch db) =
      save_to_database (fun _ => false) batch db ∧
    (save_to_database (fun _ => false) batch
        (save_to_database (fun _ => false) batch db)).length =
      (save_to_database (fun _ => false) batch db).length ∧
    (∀ a : Article, hasStoreKey db a → insertOrIgnore db a = db) := by
  have hmain : save_to_database (fun _ => false) batch
      (save_to_database (fun _ => false) batch db) =
      save_to_database (fun _ => false) batch db := by
    unfold save_to_database
    exact saveRows_noop batch _ (fun a ha => saveRows_hasKeys batch db a ha)
  exact ⟨hmain, by rw [hmain], fun a h => insertOrIgnore_of_hasKey h⟩

/-- A row sharing `artDup1`'s identity key but with different payload
columns. -/
def artDupKeyRow : Article :=
  { artDup1 with country := "Other", summary := "different", language := "fr",
                 sentiment := "positive" }

/-- Witness for C3: saving the one-row batch twice leaves one stored row,
and inserting a row whose key already exists leaves the existing row —
not the new payload — in the store. -/
theorem save_to_database_idempotent_witness :
    save_to_database (fun _ => false) [artDup1]
        (save_to_database (fun _ => false) [artDup1] []) =
      save_to_database (fun _ => false) [artDup1] [] ∧
    insertOrIgnore [artDup1] artDupKeyRow = [artDup1] := by
  exact ⟨(save_to_database_idempotent [artDup1] []).1,
         (save_to_database_idempotent [artDup1] [artDup1]).2.2 artDupKeyRow
           ⟨artDup1, by simp, by decide⟩⟩

/-- C7 (amended): the row loop of `save_to_database` runs inside one
`try`/`except sqlite3.Error`, so rows are not attempted independently: a
write failure on one row aborts the attempts on every remaining row of
the batch, leaving the store exactly as after the rows before the
failure (the error is logged once at batch level and not re-raised). -/
theorem save_to_database_aborts_on_row_failure (f : Article → Bool)
    (pre : List Article) (bad : Article) (post : List Article) (db : List Article)
    (hbad : f bad = true) :
    save_to_database f (pre ++ bad :: post) db = save_to_database f pre db := by
  unfold save_to_database
  induction pre generalizing db with
  | nil =>
      rw [List.nil_append]
      simp [saveRows, hbad]
  | cons a pre ih =>
      rw [List.cons_append, saveRows, saveRows]
      by_cases hf : f a
      · rw [if_pos hf, if_pos hf]
      · rw [if_neg hf, if_neg hf]
        exact ih (insertOrIgnore db a)

/-- An ordinary first row. -/
def rowGood1 : Article :=
  { title := "g1", publication_date := "2024-01-01 00:00:00", source := "S",
    country := "UK", summary := "ok", url := "http://x/g1", language := "en",
    sentiment := "neutral" }

/-- The row whose insert raises an sqlite error. -/
def rowBadArt : Article := { rowGood1 with title := "BAD", url := "http://x/bad" }

/-- A valid row placed after the failing one. -/
def rowGood2 : Article := { rowGood1 with title := "g2", url := "http://x/g2" }

/-- The failure oracle of the counterexample run: only the "BAD" row's
insert raises. -/
def rowFailsW (a : Article) : Bool := a.title == "BAD"

/-- C7 counterexample: in the batch `[rowGood1, rowBadArt, rowGood2]`
where only `rowBadArt`'s insert fails, the store ends with just
`rowGood1`: the perfectly valid `rowGood2` was never attempted, refuting
"a write failure on one row does not abort the attempts on the remaining
rows". -/
theorem save_row_failure_counterexample :
    save_to_database rowFailsW [rowGood1, rowBadArt, rowGood2] [] = [rowGood1] ∧
    rowGood2 ∉ save_to_database rowFailsW [rowGood1, rowBadArt, rowGood2] [] := by
  constructor
  · decide
  · decide

/-- Witness for C7's amended theorem: with the failing middle row, the
three-row batch stores the same rows as the one-row prefix batch. -/
theorem save_to_database_aborts_witness :
    save_to_database rowFailsW ([rowGood1] ++ rowBadArt :: [rowGood2]) [] =
      save_to_database rowFailsW [rowGood1] [] :=
  save_to_database_aborts_on_row_failure rowFailsW [rowGood1] rowBadArt [rowGood2] []
    (by decide)

/-- The mutable state of a `NewsScraper` instance that these claims
touch: the in-memory batch `news_data`, the SQLite store, and the two
export files (each overwritten, not appended, on every save). -/
structure ScraperState where
  news_data : List Article
  db : List Article
  csvFile : List Article
  jsonFile : List Article
deriving DecidableEq

/-- `scrape_single_feed`: fetch the one feed, extend the already-held
`news_data` with its entries (no reset, no dedup), then persist and
export the entire accumulated `news_data`; the call returns only the
newly fetched entries. -/
def scrape_single_feed (rowFails : Article → Bool) (env : FetchEnv) (st : ScraperState) :
    List Article × ScraperState :=
  let entries := fetch_feed env
  let nd := st.news_data ++ entries
  (entries,
   { news_data := nd,
     db := save_to_database rowFails nd st.db,
     csvFile := nd,
     jsonFile := nd })

/-- `run_scrape`: reset `news_data` to `[]`, scrape everything,
deduplicate, then export and persist the deduplicated batch. -/
def run_scrape (rowFails : Article → Bool) (histArts : List Article)
    (envs : List FetchEnv) (st : ScraperState) : ScraperState :=
  let nd := remove_duplicates ([] ++ scrape_all_feeds histArts envs)
  { news_data := nd,
    db := save_to_database rowFails nd st.db,
    csvFile := nd,
    jsonFile := nd }

/-- C10: only a full run resets the in-memory batch: `scrape_single_feed`
appends the fetched entries to whatever `news_data` already holds and
then writes and exports that entire accumulated batch, while returning
only the new feed's entries; `run_scrape` instead clears `news_data`
first, so its batch is independent of the state it started from. -/
theorem scrape_single_feed_accumulates (rowFails : Article → Bool) (env : FetchEnv)
    (st : ScraperState) (histArts : List Article) (envs : List FetchEnv) :
    (scrape_single_feed rowFails env st).1 = fetch_feed env ∧
    (scrape_single_feed rowFails env st).2.news_data = st.news_data ++ fetch_feed env ∧
    (scrape_single_feed rowFails env st).2.db =
      save_to_database rowFails (st.news_data ++ fetch_feed env) st.db ∧
    (scrape_single_feed rowFails env st).2.csvFile = st.news_data ++ fetch_feed env ∧
    (scrape_single_feed rowFails env st).2.jsonFile = st.news_data ++ fetch_feed env ∧
    (run_scrape rowFails histArts envs st).news_data =
      remove_duplicates (scrape_all_feeds histArts envs) := by
  refine ⟨rfl, rfl, rfl, rfl, rfl, ?_⟩
  rw [run_scrape, List.nil_append]

/-- The `/news/filter` request body: each field is `None` or a
comma-separated value list. -/
structure FilterRequest where
  country : Option String
  source : Option String
  language : Option String
  sentiment : Option String
  year : Option String
  keyword : Option String

/-- Python truthiness of an optional string: `None` and `""` are falsy. -/
def truthy : Option String → Bool
  | none => false
  | some s => s ≠ ""

/-- `[x.strip() for x in s.split(",")]`. -/
def splitStrip (s : String) : List String :=
  (s.split (fun c => c = ',')).map pyStrip

/-- `",".join(["?" for _ in vals])`. -/
def placeholderList (vals : List String) : String :=
  String.intercalate "," (vals.map (fun _ => "?"))

/-- One `" AND col IN (?,...)"` clause of `filter_news`. -/
def inClause (col : String) (vals : List String) : String :=
  " AND " ++ col ++ " IN (" ++ placeholderList vals ++ ")"

/-- The query string and parameter list built by `filter_news`,
translated clause by clause; note the keyword branch appends
`" AND (title LIKE ? summary LIKE ?)"` — with no connective between the
two conditions — exactly as the source does. -/
def buildFilterQuery (f : FilterRequest) : String × List String :=
  let qp0 : String × List String := ("SELECT * FROM news WHERE 1=1", [])
  let qp1 := if truthy f.country then
      (qp0.1 ++ inClause "country" (splitStrip (f.country.getD "")),
       qp0.2 ++ splitStrip (f.country.getD ""))
    else qp0
  let qp2 := if truthy f.source then
      (qp1.1 ++ inClause "source" (splitStrip (f.source.getD "")),
       qp1.2 ++ splitStrip (f.source.getD ""))
    else qp1
  let qp3 := if truthy f.language then
      (qp2.1 ++ inClause "language" (splitStrip (f.language.getD "")),
       qp2.2 ++ splitStrip (f.language.getD ""))
    else qp2
  let qp4 := if truthy f.sentiment then
      (qp3.1 ++ inClause "sentiment" (splitStrip (f.sentiment.getD "")),
       qp3.2 ++ splitStrip (f.sentiment.getD ""))
    else qp3
  let qp5 := if truthy f.year then
      (qp4.1 ++ " AND strftime(\x27%Y\x27, publication_date) IN ("
            ++ placeholderList (splitStrip (f.year.getD "")) ++ ")",
       qp4.2 ++ splitStrip (f.year.getD ""))
    else qp4
  if truthy f.keyword then
    (qp5.1 ++ " AND (title LIKE ? summary LIKE ?)",
     qp5.2 ++ ["%" ++ f.keyword.getD "" ++ "%", "%" ++ f.keyword.getD "" ++ "%"])
  else qp5

/-- A filter request selecting only the keyword "a". -/
def keywordOnlyRequest : FilterRequest :=
  { country := none, source := none, language := none, sentiment := none,
    year := none, keyword := some "a" }

/-- C6 (code bug): for a keyword-only filter the built SQL text is
`SELECT * FROM news WHERE 1=1 AND (title LIKE ? summary LIKE ?)` — the
two LIKE conditions are juxtaposed with no OR (or any connective)
between them, which is not the spec-intended
`... AND (title LIKE ? OR summary LIKE ?)`; SQLite rejects the malformed
query, so the endpoint answers with its service-error branch instead of
the keyword-matching rows. -/
theorem filter_news_keyword_malformed :
    (buildFilterQuery keywordOnlyRequest).1 =
      "SELECT * FROM news WHERE 1=1 AND (title LIKE ? summary LIKE ?)" ∧
    (buildFilterQuery keywordOnlyRequest).2 = ["%a%", "%a%"] ∧
    (buildFilterQuery keywordOnlyRequest).1 ≠
      "SELECT * FROM news WHERE 1=1 AND (title LIKE ? OR summary LIKE ?)" := by
  refine ⟨rfl, rfl, ?_⟩
  decide
